import Mathlib

/-!
Shallow embedding of the OmniMessage Gateway dispatch engine
(`src/gateway/models.py`, `router.py`, `core.py`, `templates.py`,
`store.py`, `rate_limiter.py`) and proofs about it.

Conventions of the embedding:
* Python `datetime` values are abstract instants modelled as `Nat`
  (only creation/identity matters to the properties proved here);
  `datetime.utcnow()` becomes an explicit `now : Nat` parameter.
* Python dicts with string keys are modelled as association lists or as
  structures with `Option` fields (a `none` field is an absent key).
* Python floats in the rate limiter are modelled as `Rat`.
* A Python callable that may raise is modelled with an `Option`/sum
  codomain; `none` (or the error summand) is a raised exception.
-/

namespace Omni

/-- ChannelType enum from `models.py`. -/
inductive ChannelType where
  | telegram | whatsapp | discord | slack | email | webhook
  deriving DecidableEq, Repr

/-- String `.value` of a `ChannelType` member. -/
def channelValue : ChannelType → String
  | .telegram => "telegram"
  | .whatsapp => "whatsapp"
  | .discord => "discord"
  | .slack => "slack"
  | .email => "email"
  | .webhook => "webhook"

/-- The `ChannelType(str)` constructor: `some` on a member value,
`none` models the `ValueError` raised on any other string. -/
def channelOfString : String → Option ChannelType
  | "telegram" => some .telegram
  | "whatsapp" => some .whatsapp
  | "discord" => some .discord
  | "slack" => some .slack
  | "email" => some .email
  | "webhook" => some .webhook
  | _ => none

/-- MessageStatus enum from `models.py`. -/
inductive MessageStatus where
  | pending | sending | sent | delivered | failed | retrying | dead
  deriving DecidableEq, Repr

/-- String `.value` of a `MessageStatus` member. -/
def statusValue : MessageStatus → String
  | .pending => "pending"
  | .sending => "sending"
  | .sent => "sent"
  | .delivered => "delivered"
  | .failed => "failed"
  | .retrying => "retrying"
  | .dead => "dead"

/-- The `MessageStatus(str)` constructor; `none` models `ValueError`. -/
def statusOfString : String → Option MessageStatus
  | "pending" => some .pending
  | "sending" => some .sending
  | "sent" => some .sent
  | "delivered" => some .delivered
  | "failed" => some .failed
  | "retrying" => some .retrying
  | "dead" => some .dead
  | _ => none

/-- MessagePriority enum from `models.py` (LOW=0, NORMAL=5, HIGH=8, CRITICAL=10). -/
inductive MessagePriority where
  | low | normal | high | critical
  deriving DecidableEq, Repr

/-- Numeric `.value` of a `MessagePriority` member. -/
def priorityValue : MessagePriority → Nat
  | .low => 0
  | .normal => 5
  | .high => 8
  | .critical => 10

/-- The `MessagePriority(int)` constructor; `none` models `ValueError`. -/
def priorityOfValue : Nat → Option MessagePriority
  | 0 => some .low
  | 5 => some .normal
  | 8 => some .high
  | 10 => some .critical
  | _ => none

/-- Attachment dataclass from `models.py`.  `data : Option (List Nat)`
models the optional `bytes` payload. -/
structure Attachment where
  filename : String
  content_type : String
  url : Option String := none
  data : Option (List Nat) := none
  size : Nat := 0
  deriving DecidableEq, Repr

/-- The dictionary produced by `Attachment.to_dict` (exactly the four
keys `filename`, `content_type`, `url`, `size`; `data` is not emitted). -/
structure AttachmentDict where
  filename : String
  content_type : String
  url : Option String
  size : Nat
  deriving DecidableEq, Repr

/-- `Attachment.to_dict` from `models.py`. -/
def Attachment.toDict (a : Attachment) : AttachmentDict :=
  { filename := a.filename, content_type := a.content_type, url := a.url, size := a.size }

/-- The call `Attachment(**a)` performed by `Message.from_dict` on an
attachment dict (all four keys present, `data` left at its default `None`). -/
def attachmentOfDict (a : AttachmentDict) : Attachment :=
  { filename := a.filename, content_type := a.content_type, url := a.url,
    data := none, size := a.size }

/-- Message dataclass from `models.py`.  `metadata` and `template_vars`
are string-valued dicts in this model. -/
structure Message where
  from_channel : ChannelType
  to_channel : ChannelType
  content : String
  target : String
  id : String
  attachments : List Attachment := []
  metadata : List (String × String) := []
  priority : MessagePriority := .normal
  status : MessageStatus := .pending
  template : Option String := none
  template_vars : List (String × String) := []
  created_at : Nat := 0
  sent_at : Option Nat := none
  retry_count : Nat := 0
  max_retries : Nat := 3
  last_error : Option String := none
  deriving DecidableEq, Repr

/-- The dictionary shape read by `Message.from_dict` and written by
`Message.to_dict`.  A `none` field is an absent key (for keys whose
default in `data.get` coincides with `None`, an explicit `null` value
is indistinguishable from absence, as in the Python code). -/
structure MessageDict where
  id : Option String := none
  from_channel : Option String := none
  to_channel : Option String := none
  content : Option String := none
  target : Option String := none
  attachments : Option (List AttachmentDict) := none
  metadata : Option (List (String × String)) := none
  priority : Option Nat := none
  status : Option String := none
  template : Option String := none
  template_vars : Option (List (String × String)) := none
  created_at : Option Nat := none
  sent_at : Option Nat := none
  retry_count : Option Nat := none
  max_retries : Option Nat := none
  last_error : Option String := none
  deriving DecidableEq, Repr

/-- `Message.to_dict` from `models.py`.  Note the source emits neither a
`template_vars` nor a `max_retries` key. -/
def Message.toDict (m : Message) : MessageDict :=
  { id := some m.id,
    from_channel := some (channelValue m.from_channel),
    to_channel := some (channelValue m.to_channel),
    content := some m.content,
    target := some m.target,
    attachments := some (m.attachments.map Attachment.toDict),
    metadata := some m.metadata,
    priority := some (priorityValue m.priority),
    status := some (statusValue m.status),
    template := m.template,
    created_at := some m.created_at,
    sent_at := m.sent_at,
    retry_count := m.retry_count,
    last_error := m.last_error }

/-- `Message.from_dict` from `models.py`.  `freshId` stands for the
`str(uuid. uuid4())` default and `now` for the `datetime.utcnow()`
default factory of `created_at`; the source passes neither `created_at`
nor `sent_at` to the constructor, so they take their defaults.  A missing
`from_channel`/`to_channel` key (`KeyError`) or an invalid enum value
(`ValueError`) makes the call raise, modelled by `none`. -/
def Message.fromDict (d : MessageDict) (freshId : String) (now : Nat) : Option Message := do
  let fcs ← d.from_channel
  let fc ← channelOfString fcs
  let tcs ← d.to_channel
  let tc ← channelOfString tcs
  let pr ← priorityOfValue (d.priority.getD 5)
  let st ← statusOfString (d.status.getD "pending")
  some
    { id := d.id.getD freshId,
      from_channel := fc,
      to_channel := tc,
      content := d.content.getD "",
      target := d.target.getD "",
      attachments := (d.attachments.getD []).map attachmentOfDict,
      metadata := d.metadata.getD [],
      priority := pr,
      status := st,
      template := d.template,
      template_vars := d.template_vars.getD [],
      created_at := now,
      sent_at := none,
      retry_count := d.retry_count.getD 0,
      max_retries := d.max_retries.getD 3,
      last_error := d.last_error }

/-- SendResult dataclass from `models.py`. -/
structure SendResult where
  success : Bool
  message_id : String
  channel : ChannelType
  response : Option (List (String × String)) := none
  error : Option String := none
  retry_count : Nat := 0
  deriving DecidableEq, Repr

/-! Routing engine (`router.py`). -/

/-- RoutingRule dataclass from `router.py`.  The `condition` callable may
raise, modelled by an `Option Bool` result with `none` as the raised
exception; `transform` is `Optional[Callable]`. -/
structure RoutingRule where
  name : String
  condition : Message → Option Bool
  target_channel : ChannelType
  priority : Int := 0
  transform : Option (Message → Message) := none
  enabled : Bool := true

/-- `RoutingRule.matches` from `router.py`: a disabled rule returns
`False`; a raising condition is caught and returns `False`. -/
def RoutingRule.matches (r : RoutingRule) (m : Message) : Bool :=
  if r.enabled then (r.condition m).getD false else false

/-- DeadLetterEntry dataclass from `router.py`. -/
structure DeadLetterEntry where
  message : Message
  error : String
  failed_at : Nat
  retry_count : Nat := 0

/-- Result of one `handler.send(message)` call inside the retry loop:
either a returned `SendResult` or a raised exception with text `e`. -/
inductive HandlerOutcome where
  | ok (r : SendResult)
  | exn (e : String)

/-- A channel handler, as seen by the engine: `send` maps the (mutated)
message of each attempt to an outcome.  Stubs that fail a fixed number
of times can inspect `retry_count`, which the loop sets before calling. -/
def Handler : Type := Message → HandlerOutcome

/-- RoutingEngine state (`router.py` constructor): rule list, retry
configuration, dead-letter queue, registered channel handlers, the
`_stats` counters used by the claims (`total`, `sent`, `errors`, `dead`
and the `sent:{channel}` family), and the middleware chain. -/
structure EngineState where
  rules : List RoutingRule := []
  maxRetries : Nat := 3
  dlq : List DeadLetterEntry := []
  handlers : ChannelType → Option Handler := fun _ => none
  statTotal : Nat := 0
  statSent : Nat := 0
  statErrors : Nat := 0
  statDead : Nat := 0
  sentByChannel : ChannelType → Nat := fun _ => 0
  middleware : List (Message → Message) := []

/-- Ordered insertion of a rule after every rule of priority greater
than or equal to its own (descending order, new element after ties). -/
def insertRuleTail (r : RoutingRule) : List RoutingRule → List RoutingRule
  | [] => [r]
  | x :: xs =>
      if x.priority < r.priority then r :: x :: xs else x :: insertRuleTail r xs

/-- Stable sort of a rule list by priority descending.  Python's
`list.sort(key=..., reverse=True)` is a stable sort, and every stable
sort produces the same output, so this insertion sort models
`self.rules.sort(key=lambda r: r.priority, reverse=True)` exactly.
`insertSortedRule` places the processed (earlier) element before later
elements of equal priority, which is precisely stability. -/
def insertSortedRule (x : RoutingRule) : List RoutingRule → List RoutingRule
  | [] => [x]
  | y :: ys =>
      if y.priority ≤ x.priority then x :: y :: ys else y :: insertSortedRule x ys

/-- Stable descending sort (see `insertSortedRule`). -/
def sortRulesDesc : List RoutingRule → List RoutingRule
  | [] => []
  | x :: xs => insertSortedRule x (sortRulesDesc xs)

/-- `RoutingEngine.add_rule`: append, then re-sort (stably) by priority
descending. -/
def addRule (st : EngineState) (r : RoutingRule) : EngineState :=
  { st with rules := sortRulesDesc (st.rules ++ [r]) }

/-- `RoutingEngine.match_rule`: first rule (in the sorted list) whose
`matches` is true. -/
def matchRule (rules : List RoutingRule) (m : Message) : Option RoutingRule :=
  rules.find? (fun r => r.matches m)

/-- The Python truthiness test `if rule.transform:` followed by
`message = rule.transform(message)`. -/
def applyTransform (r : RoutingRule) (m : Message) : Message :=
  match r.transform with
  | some f => f m
  | none => m

/-- `RoutingEngine._apply_middleware`: apply the chain in order. -/
def applyMiddleware (mws : List (Message → Message)) (m : Message) : Message :=
  mws.foldl (fun acc f => f acc) m

/-- The rule-selection step of `RoutingEngine.route` (lines 133-141):
first matching rule decides the transform and the target channel; with
no match the target channel is the message's own `to_channel`. -/
def routeSelect (rules : List RoutingRule) (m : Message) : Message × ChannelType :=
  match matchRule rules m with
  | some rule => (applyTransform rule m, rule.target_channel)
  | none => (m, m.to_channel)

/-- The message as mutated at the top of retry attempt `attempt`
(`message.retry_count = attempt`; `status = SENDING` on the first
attempt, `RETRYING` afterwards). -/
def attemptMsg (m : Message) (attempt : Nat) : Message :=
  { m with retry_count := attempt,
           status := if attempt == 0 then MessageStatus.sending else MessageStatus.retrying }

/-- Outcome of the retry loop of `_send_with_retry`: an early return
with the successful result, or fall-through with the message as left by
the last attempt and the last recorded error. -/
inductive RetryOutcome where
  | success (msg : Message) (res : SendResult)
  | exhausted (msg : Message) (lastError : String)

/-- The `for attempt in range(max_attempts + 1)` loop of
`_send_with_retry`, with `remaining` counting the attempts still allowed
after the current one (the loop starts at `attempt = 0`,
`remaining = max_attempts`).  On a returned success the message becomes
`SENT` with `sent_at = now` and the result's `retry_count` is set to the
attempt index; a returned failure records `result.error or "Unknown
error"` and a raised exception records its text, both overwriting
`last_error`, so the fall-through error is the last attempt's error. -/
def retryLoop (handler : Handler) (now : Nat) :
    Nat → Nat → Message → RetryOutcome
  | attempt, Nat.zero, msg0 =>
      let msg := attemptMsg msg0 attempt
      match handler msg with
      | HandlerOutcome.ok r =>
          if r.success then
            RetryOutcome.success { msg with status := MessageStatus.sent, sent_at := some now }
              { r with retry_count := attempt }
          else RetryOutcome.exhausted msg (r.error.getD "Unknown error")
      | HandlerOutcome.exn e => RetryOutcome.exhausted msg e
  | attempt, Nat.succ rem, msg0 =>
      let msg := attemptMsg msg0 attempt
      match handler msg with
      | HandlerOutcome.ok r =>
          if r.success then
            RetryOutcome.success { msg with status := MessageStatus.sent, sent_at := some now }
              { r with retry_count := attempt }
          else retryLoop handler now (attempt + 1) rem msg
      | HandlerOutcome.exn _ => retryLoop handler now (attempt + 1) rem msg

/-- `max_attempts = message.max_retries or self.max_retries`: Python's
`or` takes the right operand when the left is falsy, and the only falsy
`int` is `0`. -/
def resolveBudget (st : EngineState) (m : Message) : Nat :=
  if m.max_retries == 0 then st.maxRetries else m.max_retries

/-- `RoutingEngine._send_with_retry` (without the backoff sleeps, which
only consume time): runs the retry loop; on success increments `sent`
and `sent:{channel}`; on exhaustion marks the message `DEAD` with
`last_error`, increments `dead` and `errors`, appends one
DeadLetterEntry and returns the terminal failure result.  Returns the
updated engine state, the message object as left by the call, and the
SendResult. -/
def sendWithRetry (st : EngineState) (handler : Handler) (now : Nat)
    (msg : Message) (chan : ChannelType) : EngineState × Message × SendResult :=
  let maxAttempts := resolveBudget st msg
  match retryLoop handler now 0 maxAttempts msg with
  | RetryOutcome.success m r =>
      ({ st with
          statSent := st.statSent + 1,
          sentByChannel := fun c =>
            if c = chan then st.sentByChannel c + 1 else st.sentByChannel c },
        m, r)
  | RetryOutcome.exhausted m lastError =>
      let m := { m with status := MessageStatus.dead, last_error := some lastError }
      ({ st with
          statDead := st.statDead + 1,
          statErrors := st.statErrors + 1,
          dlq := st.dlq ++
            [{ message := m, error := lastError, failed_at := now,
               retry_count := maxAttempts }] },
        m,
        { success := false, message_id := m.id, channel := chan, response := none,
          error := some ("All " ++ toString (maxAttempts + 1) ++
            " attempts failed: " ++ lastError),
          retry_count := maxAttempts })

/-- `RoutingEngine.route`: bump `total`, apply middleware, select the
rule/target, fail with `No handler for channel` (incrementing `errors`)
when no handler is registered, otherwise send with retry. -/
def route (st : EngineState) (now : Nat) (msg0 : Message) :
    EngineState × Message × SendResult :=
  let st := { st with statTotal := st.statTotal + 1 }
  let msg1 := applyMiddleware st.middleware msg0
  let sel := routeSelect st.rules msg1
  let msg := sel.1
  let targetChannel := sel.2
  match st.handlers targetChannel with
  | none =>
      ({ st with statErrors := st.statErrors + 1 }, msg,
        { success := false, message_id := msg.id, channel := targetChannel,
          response := none,
          error := some ("No handler for channel: " ++ channelValue targetChannel),
          retry_count := 0 })
  | some handler => sendWithRetry st handler now msg targetChannel

/-! Template engine (`templates.py`) and dispatch facade (`core.py`). -/

/-- Remainder of a character stream after the first `}}` together with
the variable-name characters before it (the body of a Jinja
`\x7b\x7b name \x7d\x7d` expression). -/
def takeVarName : List Char → List Char × List Char
  | [] => ([], [])
  | c :: rest =>
      if c = '}' ∧ rest.head? = some '}' then ([], rest.tail)
      else
        let p := takeVarName rest
        (c :: p.1, p.2)

/-- Model of the Jinja2 rendering used by the gateway's string
templates: every `\x7b\x7b name \x7d\x7d` expression is replaced by the
value of `name` in the variable mapping, an undefined variable rendering
as the empty string (Jinja's default `Undefined`); all other characters
are copied verbatim.  Control structures are not modelled — no claim
exercises them. -/
def renderChars (vars : List (String × String)) : List Char → List Char
  | [] => []
  | '{' :: '{' :: rest =>
      let p := takeVarName rest
      ((vars.lookup (String.mk p.1).trim).getD "").toList ++ renderChars vars p.2
  | c :: rest => c :: renderChars vars rest
  termination_by l => l.length
  decreasing_by
    all_goals simp only [List.length_cons]
    all_goals first
      | · have hlen : ∀ l : List Char, (takeVarName l).2.length ≤ l.length := by
            intro l
            induction l with
            | nil => simp [takeVarName]
            | cons c r ih =>
                simp only [takeVarName]
                split
                · have ht : r.tail.length ≤ r.length := by cases r <;> simp
                  simpa using le_trans ht (Nat.le_succ _)
                · simpa using le_trans ih (Nat.le_succ _)
          exact lt_of_le_of_lt (hlen _) (by omega)
      | omega

/-- Rendering of a registered template string with a variable mapping
(`Template.render(**variables)` in `TemplateEngine.render`). -/
def renderString (t : String) (vars : List (String × String)) : String :=
  String.mk (renderChars vars t.toList)

/-- Memory-template registry of `TemplateEngine` (`_string_templates`):
a string-keyed dict, modelled as an association list in insertion order
with unique keys.  `dictSet` is Python dict assignment: replace in place
when the key exists, append otherwise. -/
def dictSet (k v : String) : List (String × String) → List (String × String)
  | [] => [(k, v)]
  | (k', v') :: rest =>
      if k' = k then (k, v) :: rest else (k', v') :: dictSet k v rest

/-- `TemplateEngine.register`: `self._string_templates[name] = template_str`. -/
def templateRegister (templates : List (String × String)) (name tstr : String) :
    List (String × String) :=
  dictSet name tstr templates

/-- `TemplateEngine.render` for a gateway built without a template
directory (the `GatewayConfig` default), where `_file_env is None`:
memory templates are consulted and a missing name raises
`TemplateNotFound`, modelled by `none`. -/
def renderTemplate (templates : List (String × String)) (name : String)
    (vars : List (String × String)) : Option String :=
  match templates.lookup name with
  | some t => some (renderString t vars)
  | none => none

/-- Gateway facade state (`core.py`): the routing engine plus the
template engine's memory registry. -/
structure GatewayState where
  engine : EngineState
  templates : List (String × String) := []

/-- `Gateway.send`: if the message names a template, render it and
replace `message.content`; a raised rendering error (here:
`TemplateNotFound`) returns a terminal failure without touching the
router.  Otherwise the message is routed. -/
def gatewaySend (gw : GatewayState) (now : Nat) (msg : Message) :
    GatewayState × Message × SendResult :=
  match msg.template with
  | some name =>
      match renderTemplate gw.templates name msg.template_vars with
      | some content =>
          let msg := { msg with content := content }
          let out := route gw.engine now msg
          ({ gw with engine := out.1 }, out.2.1, out.2.2)
      | none =>
          (gw, msg,
            { success := false, message_id := msg.id, channel := msg.to_channel,
              response := none,
              error := some ("Template render failed: " ++ name),
              retry_count := 0 })
  | none =>
      let out := route gw.engine now msg
      ({ gw with engine := out.1 }, out.2.1, out.2.2)

/-! Persistent store (`store.py`). -/

/-- One row of the `messages` table (`_init_db`).  `template_vars` and
`metadata` are stored as JSON blobs, modelled as opaque strings. -/
structure MsgRow where
  id : String
  from_channel : String
  to_channel : String
  content : String
  target : String
  template : Option String
  template_vars : String
  metadata : String
  priority : Nat
  status : String
  retry_count : Nat
  max_retries : Nat
  last_error : Option String
  created_at : Nat
  sent_at : Option Nat
  updated_at : Option Nat
  deriving DecidableEq, Repr

/-- The `messages` table, keyed by the primary-key column `id`. -/
def MsgTable : Type := String → Option MsgRow

/-- SQL `COALESCE(x, y)`. -/
def coalesce (x y : Option Nat) : Option Nat :=
  match x with
  | some v => some v
  | none => y

/-- Python truthiness of the optional `error` argument (`if error:`):
`None` and the empty string are falsy. -/
def errTruthy : Option String → Bool
  | none => false
  | some e => e ≠ ""

/-- `MessageStore.update_status`: with a truthy error, set `status`,
`last_error` and `updated_at`; otherwise set `status`,
`sent_at = COALESCE(param, sent_at)` where the parameter is `now` when
the new status is `"sent"` and NULL otherwise, and `updated_at`.
Rows whose `id` differs are untouched. -/
def updateStatus (db : MsgTable) (now : Nat) (message_id status : String)
    (error : Option String) : MsgTable :=
  fun i =>
    match db i with
    | none => none
    | some row =>
        if row.id = message_id then
          if errTruthy error then
            some { row with status := status, last_error := error,
                            updated_at := some now }
          else
            let sentParam := if status = "sent" then some now else none
            some { row with status := status,
                            sent_at := coalesce sentParam row.sent_at,
                            updated_at := some now }
        else some row

/-! Token-bucket rate limiter (`rate_limiter.py`). -/

/-- BucketConfig dataclass (floats modelled as rationals). -/
structure BucketConfig where
  capacity : Rat := 30
  refill_rate : Rat := 1
  burst : Rat := 10
  cooldown_ms : Rat := 100
  deriving DecidableEq, Repr

/-- TokenBucket state: configuration, current tokens, refill/consume
clocks (monotonic seconds) and the two counters the claims touch. -/
structure TokenBucket where
  config : BucketConfig
  tokens : Rat
  last_refill : Rat
  last_consume : Rat := 0
  total_consumed : Nat := 0
  total_rejected : Nat := 0
  deriving DecidableEq, Repr

/-- TokenBucket constructor: a fresh bucket holds `capacity` tokens
(never `capacity + burst`) and has never consumed. -/
def TokenBucket.fresh (cfg : BucketConfig) (now : Rat) : TokenBucket :=
  { config := cfg, tokens := cfg.capacity, last_refill := now }

/-- `TokenBucket._refill`: add `elapsed * refill_rate` tokens, capped at
`capacity + burst`. -/
def TokenBucket.refill (b : TokenBucket) (now : Rat) : TokenBucket :=
  { b with
      tokens := min (b.config.capacity + b.config.burst)
        (b.tokens + (now - b.last_refill) * b.config.refill_rate),
      last_refill := now }

/-- `TokenBucket.try_consume`: refill, reject while inside the cooldown
window (only once some consume has happened, `_last_consume > 0`), then
consume when enough tokens are available. -/
def TokenBucket.tryConsume (b0 : TokenBucket) (now : Rat) (tokens : Rat) :
    TokenBucket × Bool :=
  let b := b0.refill now
  if 0 < b.last_consume ∧ (now - b.last_consume) * 1000 < b.config.cooldown_ms then
    ({ b with total_rejected := b.total_rejected + 1 }, false)
  else if tokens ≤ b.tokens then
    ({ b with tokens := b.tokens - tokens, last_consume := now,
              total_consumed := b.total_consumed + 1 }, true)
  else
    ({ b with total_rejected := b.total_rejected + 1 }, false)

/-- A sequence of single-token `try_consume()` calls at the given
instants, returning the final bucket and the list of answers. -/
def consumeSeq (b : TokenBucket) : List Rat → TokenBucket × List Bool
  | [] => (b, [])
  | t :: ts =>
      let p := b.tryConsume t 1
      let q := consumeSeq p.1 ts
      (q.1, p.2 :: q.2)

/-! Specification-side definitions used in claim statements. -/

/-- An adapter outcome that the retry loop counts as a failed attempt:
a returned result with `success=False`, or a raised exception. -/
def failedOutcome : HandlerOutcome → Bool
  | .ok r => !r.success
  | .exn _ => true

/-- The error text the loop records for a failed attempt
(`result.error or "Unknown error"` for a returned failure, `str(e)` for
an exception). -/
def outcomeErrText : HandlerOutcome → String
  | .ok r => r.error.getD "Unknown error"
  | .exn e => e

/-- A rule list sorted by priority descending. -/
def RulesSortedDesc : List RoutingRule → Prop :=
  List.Pairwise (fun a b => b.priority ≤ a.priority)

/-- One step of the argmax scan in appended (later-element) position: a
later rule displaces the current best only by matching with strictly
greater priority. -/
def stepTail (m : Message) (b : Option RoutingRule) (r : RoutingRule) : Option RoutingRule :=
  match b with
  | none => if r.matches m then some r else none
  | some b' => if r.matches m && decide (b'.priority < r.priority) then some r else some b'

/-- One step of the argmax scan in head (earlier-element) position: an
earlier rule is selected over any later matching rule of lower or equal
priority. -/
def pickBestCons (m : Message) (x : RoutingRule) : Option RoutingRule → Option RoutingRule
  | none => if x.matches m then some x else none
  | some b => if x.matches m && decide (b.priority ≤ x.priority) then some x else some b

/-- Specification-side argmax over a rule list in insertion order: the
matching (enabled, predicate-true) rule of greatest priority, the
earliest-inserted winning ties. -/
def pickBest (m : Message) : List RoutingRule → Option RoutingRule
  | [] => none
  | x :: l => pickBestCons m x (pickBest m l)

/-- The rule list held by an engine after the rules of `l` were added,
in order, through `add_rule` starting from an empty engine. -/
def engineWithRules (l : List RoutingRule) : EngineState :=
  l.foldl addRule {}

/-! Concrete fixtures used by counterexamples and witnesses. -/

/-- A plain message fixture. -/
def msgFix : Message :=
  { from_channel := ChannelType.telegram, to_channel := ChannelType.slack,
    content := "hi", target := "t", id := "m1", max_retries := 1 }

/-- A handler that succeeds from the third attempt on (a stub failing
twice, then succeeding). -/
def handlerC2 : Handler := fun m =>
  if 2 ≤ m.retry_count then
    HandlerOutcome.ok { success := true, message_id := m.id, channel := ChannelType.slack }
  else HandlerOutcome.exn "temporary failure"

/-- A message whose own `max_retries` field is `0` (falsy in Python). -/
def msgC2 : Message :=
  { from_channel := ChannelType.telegram, to_channel := ChannelType.slack,
    content := "hi", target := "t", id := "m2", max_retries := 0 }

/-- A message carrying the fields that `to_dict`/`from_dict` lose. -/
def msgC4 : Message :=
  { from_channel := ChannelType.telegram, to_channel := ChannelType.slack,
    content := "hi", target := "t", id := "m4",
    attachments := [{ filename := "f.txt", content_type := "text/plain",
                      url := some "http://x", data := some [104, 105], size := 2 }],
    template_vars := [("k", "v")], created_at := 3, sent_at := some 7,
    max_retries := 5 }

/-- A handler that always succeeds on slack. -/
def handlerC6 : Handler := fun m =>
  HandlerOutcome.ok { success := true, message_id := m.id, channel := ChannelType.slack }

/-- A gateway whose template `t` is registered as the empty string and
whose slack adapter always succeeds. -/
def gwC6 : GatewayState :=
  { engine := { handlers := fun c => if c = ChannelType.slack then some handlerC6 else none },
    templates := [("t", "")] }

/-- A message rendered through template `t` with non-empty prior content. -/
def msgC6 : Message :=
  { from_channel := ChannelType.webhook, to_channel := ChannelType.slack,
    content := "prior", target := "#ops", id := "m6", template := some "t" }

/-- A stored row whose `sent_at` is already set (to instant 5). -/
def rowC7 : MsgRow :=
  { id := "m1", from_channel := "telegram", to_channel := "slack", content := "hi",
    target := "t", template := none, template_vars := "", metadata := "",
    priority := 5, status := "sent", retry_count := 0, max_retries := 3,
    last_error := none, created_at := 1, sent_at := some 5, updated_at := some 5 }

/-- A one-row message table holding `rowC7`. -/
def dbC7 : MsgTable := fun i => if i = "m1" then some rowC7 else none

/-- A routing rule fixture named `dup`. -/
def ruleC8 : RoutingRule :=
  { name := "dup", condition := fun _ => some true,
    target_channel := ChannelType.slack, priority := 0 }

/-- A disabled rule whose predicate is always true. -/
def ruleDisabled : RoutingRule :=
  { name := "disabled", condition := fun _ => some true,
    target_channel := ChannelType.slack, enabled := false }

/-- An enabled rule whose predicate raises on every message. -/
def ruleRaising : RoutingRule :=
  { name := "raising", condition := fun _ => none,
    target_channel := ChannelType.slack }

/-- Rule fixtures for the argmax witness: two matching rules of equal
priority 1 and a non-matching rule of higher priority 5. -/
def ruleC3a : RoutingRule :=
  { name := "a", condition := fun _ => some true,
    target_channel := ChannelType.email, priority := 1 }

/-- See `ruleC3a`. -/
def ruleC3b : RoutingRule :=
  { name := "b", condition := fun _ => some false,
    target_channel := ChannelType.discord, priority := 5 }

/-- See `ruleC3a`. -/
def ruleC3c : RoutingRule :=
  { name := "c", condition := fun _ => some true,
    target_channel := ChannelType.webhook, priority := 1 }

/-! Helper lemmas about the retry loop. -/

theorem attemptMsg_attemptMsg (m : Message) (a b : Nat) :
    attemptMsg (attemptMsg m a) b = attemptMsg m b := rfl

theorem retryLoop_all_failed (handler : Handler) (now : Nat)
    (hfail : ∀ m', failedOutcome (handler m') = true) :
    ∀ (remaining attempt : Nat) (msg : Message),
    retryLoop handler now attempt remaining msg =
      RetryOutcome.exhausted (attemptMsg msg (attempt + remaining))
        (outcomeErrText (handler (attemptMsg msg (attempt + remaining)))) := by
  intro remaining
  induction remaining with
  | zero =>
      intro attempt msg
      simp only [retryLoop, Nat.add_zero]
      cases hh : handler (attemptMsg msg attempt) with
      | ok r =>
          have hf := hfail (attemptMsg msg attempt)
          rw [hh] at hf
          simp only [failedOutcome, Bool.not_eq_eq_eq_not, Bool.not_true] at hf
          simp [hf, outcomeErrText]
      | exn e => simp [outcomeErrText]
  | succ rem ih =>
      intro attempt msg
      have harith : attempt + 1 + rem = attempt + (rem + 1) := by omega
      simp only [retryLoop]
      cases hh : handler (attemptMsg msg attempt) with
      | ok r =>
          have hf := hfail (attemptMsg msg attempt)
          rw [hh] at hf
          simp only [failedOutcome, Bool.not_eq_eq_eq_not, Bool.not_true] at hf
          simp only [hf, Bool.false_eq_true, if_false]
          rw [ih (attempt + 1) (attemptMsg msg attempt), attemptMsg_attemptMsg, harith]
      | exn e =>
          rw [ih (attempt + 1) (attemptMsg msg attempt), attemptMsg_attemptMsg, harith]

theorem retryLoop_success_bound (handler : Handler) (now : Nat) :
    ∀ (remaining attempt : Nat) (msg m : Message) (r : SendResult),
    retryLoop handler now attempt remaining msg = RetryOutcome.success m r →
    m.status = MessageStatus.sent ∧ r.retry_count ≤ attempt + remaining := by
  intro remaining
  induction remaining with
  | zero =>
      intro attempt msg m r h
      simp only [retryLoop] at h
      cases hh : handler (attemptMsg msg attempt) with
      | ok rr =>
          rw [hh] at h
          by_cases hs : rr.success
          · simp only [hs, if_true] at h
            cases h
            exact ⟨rfl, by show attempt ≤ attempt + 0; omega⟩
          · simp [hs] at h
      | exn e => rw [hh] at h; cases h
  | succ rem ih =>
      intro attempt msg m r h
      simp only [retryLoop] at h
      cases hh : handler (attemptMsg msg attempt) with
      | ok rr =>
          rw [hh] at h
          by_cases hs : rr.success
          · simp only [hs, if_true] at h
            cases h
            exact ⟨rfl, by show attempt ≤ attempt + (rem + 1); omega⟩
          · simp only [hs, Bool.false_eq_true, if_false] at h
            have hb := ih (attempt + 1) (attemptMsg msg attempt) m r h
            exact ⟨hb.1, by omega⟩
      | exn e =>
          rw [hh] at h
          have hb := ih (attempt + 1) (attemptMsg msg attempt) m r h
          exact ⟨hb.1, by omega⟩

/-! Claim C1. -/

/-- C1: when the adapter returns failure or raises on every attempt of
the retry loop with budget `N = msg.max_retries or engine.max_retries`,
the engine marks the message dead with the last error, appends exactly
one dead-letter entry for it, increments `errors` and `dead`, and
returns a result with `success=False`, `retry_count=N` and error string
`All N+1 attempts failed: <last error>`. -/
theorem dead_letter_on_total_failure (st : EngineState) (handler : Handler)
    (now : Nat) (msg : Message) (chan : ChannelType)
    (hfail : ∀ m', failedOutcome (handler m') = true) :
    sendWithRetry st handler now msg chan =
      ({ st with
          statDead := st.statDead + 1,
          statErrors := st.statErrors + 1,
          dlq := st.dlq ++
            [{ message :=
                 { attemptMsg msg (resolveBudget st msg) with
                     status := MessageStatus.dead,
                     last_error :=
                       some (outcomeErrText (handler (attemptMsg msg (resolveBudget st msg)))) },
               error := outcomeErrText (handler (attemptMsg msg (resolveBudget st msg))),
               failed_at := now, retry_count := resolveBudget st msg }] },
        { attemptMsg msg (resolveBudget st msg) with
            status := MessageStatus.dead,
            last_error :=
              some (outcomeErrText (handler (attemptMsg msg (resolveBudget st msg)))) },
        { success := false, message_id := msg.id, channel := chan, response := none,
          error := some ("All " ++ toString (resolveBudget st msg + 1) ++
            " attempts failed: " ++
            outcomeErrText (handler (attemptMsg msg (resolveBudget st msg)))),
          retry_count := resolveBudget st msg }) := by
  have h := retryLoop_all_failed handler now hfail (resolveBudget st msg) 0 msg
  rw [Nat.zero_add] at h
  simp only [sendWithRetry, h]
  rfl

/-- Witness: an engine with default budget, an always-raising adapter
and a message with `max_retries=1` produce the terminal result with
`retry_count=1` and the two-attempt error string. -/
theorem dead_letter_on_total_failure_witness :
    (sendWithRetry {} (fun _ => HandlerOutcome.exn "boom") 0 msgFix ChannelType.slack).2.2 =
      { success := false, message_id := "m1", channel := ChannelType.slack, response := none,
        error := some "All 2 attempts failed: boom", retry_count := 1 } := by
  have h := dead_letter_on_total_failure {} (fun _ => HandlerOutcome.exn "boom") 0 msgFix
    ChannelType.slack (fun _ => rfl)
  rw [h]
  decide

/-! Claim C2. -/

/-- C2 (amended): a dispatch whose result has `success=True` leaves the
message in status `sent`, and its `retry_count` is at most the retry
budget `N = msg.max_retries or engine.max_retries` — not necessarily at
most the message's own `max_retries` field, which the budget replaces
when it is 0. -/
theorem success_within_budget (st : EngineState) (handler : Handler) (now : Nat)
    (msg : Message) (chan : ChannelType)
    (hs : (sendWithRetry st handler now msg chan).2.2.success = true) :
    (sendWithRetry st handler now msg chan).2.1.status = MessageStatus.sent ∧
    (sendWithRetry st handler now msg chan).2.2.retry_count ≤ resolveBudget st msg ∧
    resolveBudget st msg = (if msg.max_retries == 0 then st.maxRetries else msg.max_retries) := by
  cases h : retryLoop handler now 0 (resolveBudget st msg) msg with
  | success m r =>
      have hb := retryLoop_success_bound handler now (resolveBudget st msg) 0 msg m r h
      refine ⟨?_, ?_, rfl⟩
      · simp only [sendWithRetry, h]
        exact hb.1
      · simp only [sendWithRetry, h]
        have := hb.2
        omega
  | exhausted m e =>
      simp only [sendWithRetry, h] at hs
      simp at hs

/-- Witness: an always-succeeding adapter sends on the first attempt. -/
theorem success_within_budget_witness :
    (sendWithRetry {} handlerC6 0 msgFix ChannelType.slack).2.1.status = MessageStatus.sent ∧
    (sendWithRetry {} handlerC6 0 msgFix ChannelType.slack).2.2.retry_count ≤
      resolveBudget {} msgFix ∧
    resolveBudget {} msgFix =
      (if msgFix.max_retries == 0 then ({} : EngineState).maxRetries else msgFix.max_retries) :=
  success_within_budget {} handlerC6 0 msgFix ChannelType.slack (by decide)

/-- C2 counterexample: with engine default budget 3 and a message whose
`max_retries` field is 0 (falsy, so the budget falls back to 3), an
adapter that succeeds on the third attempt yields `success=True` with
`retry_count = 2`, which exceeds the message's `max_retries` field. -/
theorem retry_count_exceeds_max_retries_field :
    (sendWithRetry { maxRetries := 3 } handlerC2 0 msgC2 ChannelType.slack).2.2.success = true ∧
    (sendWithRetry { maxRetries := 3 } handlerC2 0 msgC2 ChannelType.slack).2.2.retry_count = 2 ∧
    msgC2.max_retries = 0 ∧
    ¬((sendWithRetry { maxRetries := 3 } handlerC2 0 msgC2 ChannelType.slack).2.2.retry_count ≤
        msgC2.max_retries) := by
  decide

/-! Claim C10. -/

/-- C10: rule matching is total and never propagates an exception — a
disabled rule never matches, a rule whose predicate raises is treated as
not matching, a non-matching head rule falls through to the rest of the
(priority-ordered) list, and with no match at all the selection falls
back to the message's own channel. -/
theorem rule_matching_is_total (r : RoutingRule) (rs : List RoutingRule) (m : Message) :
    (r.enabled = false → r.matches m = false) ∧
    (r.condition m = none → r.matches m = false) ∧
    (r.matches m = false → matchRule (r :: rs) m = matchRule rs m) ∧
    (matchRule rs m = none → routeSelect rs m = (m, m.to_channel)) := by
  refine ⟨?_, ?_, ?_, ?_⟩
  · intro h; simp [RoutingRule.matches, h]
  · intro h; simp [RoutingRule.matches, h]
  · intro h
    simp only [matchRule]
    rw [List.find?_cons_of_neg]
    simp [h]
  · intro h
    simp [routeSelect, h]

/-- Witness: the disabled rule and the raising rule both fail to match
a concrete message. -/
theorem rule_matching_is_total_witness :
    RoutingRule.matches ruleDisabled msgFix = false ∧
    RoutingRule.matches ruleRaising msgFix = false :=
  ⟨(rule_matching_is_total ruleDisabled [] msgFix).1 rfl,
   (rule_matching_is_total ruleRaising [] msgFix).2.1 rfl⟩

/-! Claim C5. -/

/-- Stat bookkeeping of `_send_with_retry`: `total` is untouched and
exactly one of `sent`/`errors` is incremented. -/
theorem sendWithRetry_stats (st : EngineState) (handler : Handler) (now : Nat)
    (msg : Message) (chan : ChannelType) :
    (sendWithRetry st handler now msg chan).1.statTotal = st.statTotal ∧
    (sendWithRetry st handler now msg chan).1.statSent +
      (sendWithRetry st handler now msg chan).1.statErrors =
      st.statSent + st.statErrors + 1 := by
  cases h : retryLoop handler now 0 (resolveBudget st msg) msg with
  | success m r => refine ⟨?_, ?_⟩ <;> simp only [sendWithRetry, h] <;> omega
  | exhausted m e => refine ⟨?_, ?_⟩ <;> simp only [sendWithRetry, h] <;> omega

/-- C5: each `route` call increments `total` by exactly one (so `total`
never decreases), and re-establishes `total = sent + errors` whether the
call ends in a no-handler failure, a successful send, or a dead-letter. -/
theorem route_total_counter (st : EngineState) (now : Nat) (msg : Message)
    (hinv : st.statTotal = st.statSent + st.statErrors) :
    (route st now msg).1.statTotal = st.statTotal + 1 ∧
    st.statTotal ≤ (route st now msg).1.statTotal ∧
    (route st now msg).1.statTotal =
      (route st now msg).1.statSent + (route st now msg).1.statErrors := by
  have hkey : (route st now msg).1.statTotal = st.statTotal + 1 ∧
      (route st now msg).1.statSent + (route st now msg).1.statErrors =
        st.statSent + st.statErrors + 1 := by
    simp only [route]
    rcases hh : st.handlers (routeSelect st.rules (applyMiddleware st.middleware msg)).2
      with _ | handler
    · refine ⟨?_, ?_⟩ <;> simp only [hh] <;> omega
    · have hsw := sendWithRetry_stats { st with statTotal := st.statTotal + 1 } handler now
        (routeSelect st.rules (applyMiddleware st.middleware msg)).1
        (routeSelect st.rules (applyMiddleware st.middleware msg)).2
      simp only at hsw
      refine ⟨?_, ?_⟩ <;> simp only [hh] <;> omega
  exact ⟨hkey.1, by omega, by omega⟩

/-- Witness: a route call on an empty engine (no handler registered,
counters all zero) bumps `total` to 1 and keeps `total = sent+errors`. -/
theorem route_total_counter_witness :
    (route {} 0 msgFix).1.statTotal = ({} : EngineState).statTotal + 1 ∧
    ({} : EngineState).statTotal ≤ (route {} 0 msgFix).1.statTotal ∧
    (route {} 0 msgFix).1.statTotal =
      (route {} 0 msgFix).1.statSent + (route {} 0 msgFix).1.statErrors :=
  route_total_counter {} 0 msgFix rfl

/-! Claim C4. -/

theorem channelValue_roundtrip (c : ChannelType) :
    channelOfString (channelValue c) = some c := by
  cases c <;> rfl

theorem statusValue_roundtrip (s : MessageStatus) :
    statusOfString (statusValue s) = some s := by
  cases s <;> rfl

theorem priorityValue_roundtrip (p : MessagePriority) :
    priorityOfValue (priorityValue p) = some p := by
  cases p <;> rfl

/-- C4 (amended): `from_dict(to_dict(m))` preserves `id`, the two
channels, `content`, `target`, `metadata`, `priority`, `status`,
`template`, `retry_count`, `last_error` and the attachment descriptors
(minus their inline bytes); it does not preserve `template_vars` and
`max_retries` (keys `to_dict` never emits, so they revert to defaults),
nor `created_at`/`sent_at` (which `from_dict` never passes to the
constructor). -/
theorem message_roundtrip (m : Message) (freshId : String) (now : Nat) :
    Message.fromDict (Message.toDict m) freshId now =
      some { m with
              attachments := m.attachments.map (fun a => { a with data := none }),
              template_vars := [],
              created_at := now,
              sent_at := none,
              max_retries := 3 } := by
  simp only [Message.fromDict, Message.toDict, channelValue_roundtrip,
    statusValue_roundtrip, priorityValue_roundtrip, Option.getD_some,
    Option.bind_eq_bind, Option.some_bind, List.map_map]
  rfl

/-- C4 counterexample: the round-trip resets `max_retries` (5 becomes
the default 3), `template_vars` (emptied) and `created_at`/`sent_at`,
and drops attachment bytes, so it does not preserve every public field. -/
theorem message_roundtrip_loses_fields :
    (Message.fromDict (Message.toDict msgC4) "fresh" 0).map Message.max_retries ≠
      some msgC4.max_retries ∧
    (Message.fromDict (Message.toDict msgC4) "fresh" 0).map Message.template_vars ≠
      some msgC4.template_vars ∧
    (Message.fromDict (Message.toDict msgC4) "fresh" 0).map Message.sent_at ≠
      some msgC4.sent_at ∧
    (Message.fromDict (Message.toDict msgC4) "fresh" 0).map
        (fun m => m.attachments.map Attachment.data) ≠
      some (msgC4.attachments.map Attachment.data) := by
  decide

/-! Claim C6. -/

/-- C6 (amended): for a message with a template name set, a failing
render (here: an unregistered template) is an immediate terminal
failure — the gateway state, including the whole routing engine with
its retry loop and counters, is untouched and a `Template render
failed` result is returned; a successful render replaces the content
with the rendered string (which may be empty) and dispatches through
the router. -/
theorem template_failure_is_terminal (gw : GatewayState) (now : Nat) (msg : Message)
    (name : String) (htpl : msg.template = some name) :
    (renderTemplate gw.templates name msg.template_vars = none →
      gatewaySend gw now msg =
        (gw, msg,
          { success := false, message_id := msg.id, channel := msg.to_channel,
            response := none,
            error := some ("Template render failed: " ++ name), retry_count := 0 })) ∧
    (∀ s, renderTemplate gw.templates name msg.template_vars = some s →
      gatewaySend gw now msg =
        ({ gw with engine := (route gw.engine now { msg with content := s }).1 },
          (route gw.engine now { msg with content := s }).2.1,
          (route gw.engine now { msg with content := s }).2.2)) := by
  constructor
  · intro hr
    simp [gatewaySend, htpl, hr]
  · intro s hr
    simp [gatewaySend, htpl, hr]

/-- Witness: sending a message naming an unregistered template through
an empty gateway returns the terminal template failure. -/
theorem template_failure_is_terminal_witness :
    gatewaySend { engine := {} } 0
        { from_channel := ChannelType.webhook, to_channel := ChannelType.slack,
          content := "", target := "#ops", id := "m6b", template := some "missing" } =
      ({ engine := {} },
        { from_channel := ChannelType.webhook, to_channel := ChannelType.slack,
          content := "", target := "#ops", id := "m6b", template := some "missing" },
        { success := false, message_id := "m6b", channel := ChannelType.slack,
          response := none,
          error := some ("Template render failed: " ++ "missing"), retry_count := 0 }) :=
  (template_failure_is_terminal { engine := {} } 0 _ "missing" rfl).1 rfl

/-- C6 counterexample: a registered template whose body is the empty
string renders successfully to empty content, and the dispatch proceeds
into the routing engine and succeeds — the message neither has non-empty
content after rendering nor fails with a template error. -/
theorem empty_template_renders_and_dispatches :
    renderTemplate gwC6.templates "t" msgC6.template_vars = some "" ∧
    (gatewaySend gwC6 0 msgC6).2.1.content = "" ∧
    (gatewaySend gwC6 0 msgC6).2.2.success = true ∧
    (gatewaySend gwC6 0 msgC6).2.2.error = none ∧
    (gatewaySend gwC6 0 msgC6).1.engine.statTotal = 1 := by
  have hrender : renderTemplate gwC6.templates "t" msgC6.template_vars = some "" := by
    simp [renderTemplate, gwC6, msgC6, renderString, renderChars, String.toList]
  have hsend : gatewaySend gwC6 0 msgC6 =
      ({ gwC6 with engine := (route gwC6.engine 0 { msgC6 with content := "" }).1 },
        (route gwC6.engine 0 { msgC6 with content := "" }).2.1,
        (route gwC6.engine 0 { msgC6 with content := "" }).2.2) := by
    simp only [gatewaySend, show msgC6.template = some "t" from rfl, hrender]
  refine ⟨hrender, ?_, ?_, ?_, ?_⟩ <;> rw [hsend] <;> decide

/-! Claim C7. -/

/-- C7 (amended): `update_status` touches only the row with the given
id, and only its `status`, `last_error`, `sent_at` and `updated_at`
columns.  With a truthy error, `sent_at` is untouched; without one,
`sent_at` is overwritten with the current time whenever the new status
is `sent` (the source's `COALESCE(?, sent_at)` places the non-NULL new
value first, so an already-set `sent_at` is replaced, not preserved)
and kept otherwise. -/
theorem update_status_frame (db : MsgTable) (now : Nat) (mid status : String)
    (error : Option String) (i : String) :
    (db i = none → updateStatus db now mid status error i = none) ∧
    (∀ row, db i = some row →
      (row.id ≠ mid → updateStatus db now mid status error i = some row) ∧
      (row.id = mid → ∃ row',
        updateStatus db now mid status error i = some row' ∧
        row'.id = row.id ∧ row'.from_channel = row.from_channel ∧
        row'.to_channel = row.to_channel ∧ row'.content = row.content ∧
        row'.target = row.target ∧ row'.template = row.template ∧
        row'.template_vars = row.template_vars ∧ row'.metadata = row.metadata ∧
        row'.priority = row.priority ∧ row'.retry_count = row.retry_count ∧
        row'.max_retries = row.max_retries ∧ row'.created_at = row.created_at ∧
        row'.status = status ∧ row'.updated_at = some now ∧
        (errTruthy error = true →
          row'.last_error = error ∧ row'.sent_at = row.sent_at) ∧
        (errTruthy error = false →
          row'.last_error = row.last_error ∧
          row'.sent_at = (if status = "sent" then some now else row.sent_at)))) := by
  constructor
  · intro h
    simp [updateStatus, h]
  · intro row hrow
    constructor
    · intro hid
      simp [updateStatus, hrow, hid]
    · intro hid
      by_cases he : errTruthy error = true
      · have hres : updateStatus db now mid status error i =
            some { row with status := status, last_error := error,
                            updated_at := some now } := by
          simp [updateStatus, hrow, hid, he]
        refine ⟨_, hres, rfl, rfl, rfl, rfl, rfl, rfl, rfl, rfl, rfl, rfl, rfl, rfl,
          rfl, rfl, ?_, ?_⟩
        · intro ht
          exact ⟨rfl, rfl⟩
        · intro hf
          simp [he] at hf
      · rw [Bool.not_eq_true] at he
        have hres : updateStatus db now mid status error i =
            some { row with status := status,
                            sent_at := coalesce
                              (if status = "sent" then some now else none) row.sent_at,
                            updated_at := some now } := by
          simp [updateStatus, hrow, hid, he]
        refine ⟨_, hres, rfl, rfl, rfl, rfl, rfl, rfl, rfl, rfl, rfl, rfl, rfl, rfl,
          rfl, rfl, ?_, ?_⟩
        · intro ht
          simp [he] at ht
        · intro hf
          refine ⟨rfl, ?_⟩
          by_cases hsent : status = "sent" <;> simp [coalesce, hsent]

/-- Witness: updating a missing id leaves the table empty at that key. -/
theorem update_status_frame_witness :
    updateStatus (fun _ => none) 0 "a" "sent" none "a" = none :=
  (update_status_frame (fun _ => none) 0 "a" "sent" none "a").1 rfl

/-- C7 counterexample: a second `update_status(id, "sent")` on a row
whose `sent_at` is already 5 overwrites it with the new time 9, so the
previously stored `sent_at` does not survive. -/
theorem update_status_overwrites_sent_at :
    dbC7 "m1" = some rowC7 ∧ rowC7.sent_at = some 5 ∧
    updateStatus dbC7 9 "m1" "sent" none "m1" =
      some { rowC7 with sent_at := some 9, updated_at := some 9 } ∧
    some (9 : Nat) ≠ some 5 := by
  refine ⟨rfl, rfl, ?_, by decide⟩
  decide

/-! Claim C8. -/

theorem dictSet_idem (k v : String) :
    ∀ d : List (String × String), dictSet k v (dictSet k v d) = dictSet k v d := by
  intro d
  induction d with
  | nil => simp [dictSet]
  | cons p rest ih =>
      by_cases h : p.1 = k
      · simp [dictSet, h]
      · simp [dictSet, h, ih]

theorem countP_insertSortedRule (p : RoutingRule → Bool) (x : RoutingRule) :
    ∀ l : List RoutingRule,
    (insertSortedRule x l).countP p = l.countP p + (if p x then 1 else 0) := by
  intro l
  induction l with
  | nil => by_cases h : p x <;> simp [insertSortedRule, List.countP_cons, h]
  | cons y ys ih =>
      simp only [insertSortedRule]
      by_cases hc : y.priority ≤ x.priority
      · by_cases h : p x <;> simp [hc, List.countP_cons, h] <;> omega
      · by_cases h : p x <;> simp [hc, List.countP_cons, ih, h] <;> omega

theorem countP_sortRulesDesc (p : RoutingRule → Bool) :
    ∀ l : List RoutingRule, (sortRulesDesc l).countP p = l.countP p := by
  intro l
  induction l with
  | nil => rfl
  | cons x xs ih =>
      simp [sortRulesDesc, countP_insertSortedRule, ih, List.countP_cons]

/-- C8 (amended): template registration is idempotent by name — a
second registration under the same name replaces the dict entry in
place, leaving the registry exactly as after the first.  Rule
registration is not: `add_rule` appends unconditionally, so adding a
rule whose name is already present yields a second entry under that
name. -/
theorem registration_idempotency (d : List (String × String)) (name tstr : String)
    (st : EngineState) (r : RoutingRule) :
    templateRegister (templateRegister d name tstr) name tstr =
      templateRegister d name tstr ∧
    ((addRule st r).rules.countP (fun x => x.name == r.name)) =
      st.rules.countP (fun x => x.name == r.name) + 1 := by
  constructor
  · exact dictSet_idem name tstr d
  · simp [addRule, countP_sortRulesDesc, List.countP_append, List.countP_cons]

/-- C8 counterexample: adding the same named rule twice leaves two
entries named `dup` in the engine's rule list — rule registration is
not idempotent by name. -/
theorem duplicate_rule_registration :
    ((addRule (addRule {} ruleC8) ruleC8).rules.countP
        (fun x => x.name == "dup")) = 2 := by
  rfl

/-- Witness: instantiating the idempotency theorem at a concrete
registry and engine. -/
theorem registration_idempotency_witness :
    templateRegister (templateRegister [("greet", "hello")] "greet" "hello") "greet" "hello" =
      templateRegister [("greet", "hello")] "greet" "hello" ∧
    ((addRule {} ruleC8).rules.countP (fun x => x.name == ruleC8.name)) =
      (({} : EngineState)).rules.countP (fun x => x.name == ruleC8.name) + 1 :=
  registration_idempotency [("greet", "hello")] "greet" "hello" {} ruleC8

/-! Claim C9. -/

/-- With a zero refill rate, `_refill` only clamps the token count at
`capacity + burst` and stamps the clock. -/
theorem refill_zero_rate (b : TokenBucket) (t : Rat) (h0 : b.config.refill_rate = 0) :
    b.refill t =
      { b with tokens := min (b.config.capacity + b.config.burst) b.tokens,
               last_refill := t } := by
  simp [TokenBucket.refill, h0]

/-- Invariant behind the admission bound: with zero refill the number
of granted single-token consumes never exceeds the tokens held at the
start of the window. -/
theorem consumeSeq_count_le (ts : List Rat) : ∀ b : TokenBucket,
    b.config.refill_rate = 0 → 0 ≤ b.tokens →
    0 ≤ b.config.capacity + b.config.burst →
    ((consumeSeq b ts).2.count true : Rat) ≤ b.tokens := by
  induction ts with
  | nil =>
      intro b _ h1 _
      simpa [consumeSeq] using h1
  | cons t rest ih =>
      intro b h0 h1 h2
      have hmin0 : (0 : Rat) ≤ min (b.config.capacity + b.config.burst) b.tokens :=
        le_min h2 h1
      have hminle : min (b.config.capacity + b.config.burst) b.tokens ≤ b.tokens :=
        min_le_right _ _
      rcases hp : b.tryConsume t 1 with ⟨b', ok⟩
      simp only [consumeSeq, hp]
      simp only [TokenBucket.tryConsume, refill_zero_rate b t h0] at hp
      split_ifs at hp with hcd htok
      · injection hp with hb1 hb2
        subst hb2
        have hcfg : b'.config = b.config := by rw [← hb1]
        have htk : b'.tokens = min (b.config.capacity + b.config.burst) b.tokens := by
          rw [← hb1]
        have hrec := ih b' (by rw [hcfg]; exact h0) (by rw [htk]; exact hmin0)
          (by rw [hcfg]; exact h2)
        rw [htk] at hrec
        simp only [List.count_cons]
        simp
        linarith [hrec, hminle]
      · injection hp with hb1 hb2
        subst hb2
        have hcfg : b'.config = b.config := by rw [← hb1]
        have htk : b'.tokens = min (b.config.capacity + b.config.burst) b.tokens - 1 := by
          rw [← hb1]
        have hrec := ih b' (by rw [hcfg]; exact h0) (by rw [htk]; linarith)
          (by rw [hcfg]; exact h2)
        rw [htk] at hrec
        simp only [List.count_cons]
        simp
        push_cast
        linarith [hrec, hminle, htok]
      · injection hp with hb1 hb2
        subst hb2
        have hcfg : b'.config = b.config := by rw [← hb1]
        have htk : b'.tokens = min (b.config.capacity + b.config.burst) b.tokens := by
          rw [← hb1]
        have hrec := ih b' (by rw [hcfg]; exact h0) (by rw [htk]; exact hmin0)
          (by rw [hcfg]; exact h2)
        rw [htk] at hrec
        simp only [List.count_cons]
        simp
        linarith [hrec, hminle]

/-- C9: with zero refill a bucket admits at most `capacity + burst`
single-token requests over any sequence of instants, and in particular
a fresh bucket with `capacity=2, refill_rate=0, cooldown_ms=0` answers
three successive `try_consume()` calls with true, true, false. -/
theorem rate_limiter_zero_refill_bound (cfg : BucketConfig) (t0 : Rat) (ts : List Rat)
    (hrate : cfg.refill_rate = 0) (hcap : 0 ≤ cfg.capacity) (hburst : 0 ≤ cfg.burst) :
    ((consumeSeq (TokenBucket.fresh cfg t0) ts).2.count true : Rat) ≤
      cfg.capacity + cfg.burst ∧
    (consumeSeq
        (TokenBucket.fresh
          { capacity := 2, refill_rate := 0, burst := 10, cooldown_ms := 0 } 0)
        [1, 2, 3]).2 = [true, true, false] := by
  constructor
  · have h := consumeSeq_count_le ts (TokenBucket.fresh cfg t0) hrate
      (by simpa [TokenBucket.fresh] using hcap) (by simp [TokenBucket.fresh]; linarith)
    have hft : (TokenBucket.fresh cfg t0).tokens = cfg.capacity := rfl
    rw [hft] at h
    linarith
  · norm_num [consumeSeq, TokenBucket.tryConsume, TokenBucket.refill, TokenBucket.fresh]

/-- Witness: the bound and the saturation scenario at the concrete
configuration `capacity=2, refill_rate=0, burst=10, cooldown_ms=0`. -/
theorem rate_limiter_zero_refill_bound_witness :
    ((consumeSeq
        (TokenBucket.fresh
          { capacity := 2, refill_rate := 0, burst := 10, cooldown_ms := 0 } 0)
        [1, 2, 3]).2.count true : Rat) ≤ 2 + 10 ∧
    (consumeSeq
        (TokenBucket.fresh
          { capacity := 2, refill_rate := 0, burst := 10, cooldown_ms := 0 } 0)
        [1, 2, 3]).2 = [true, true, false] :=
  rate_limiter_zero_refill_bound
    { capacity := 2, refill_rate := 0, burst := 10, cooldown_ms := 0 } 0 [1, 2, 3]
    rfl (by norm_num) (by norm_num)

/-! Claim C3: rule ordering and selection. -/

theorem mem_insertRuleTail {x r : RoutingRule} : ∀ {l : List RoutingRule},
    x ∈ insertRuleTail r l ↔ x = r ∨ x ∈ l := by
  intro l
  induction l with
  | nil => simp [insertRuleTail]
  | cons y ys ih =>
      simp only [insertRuleTail]
      split_ifs with h
      · simp only [List.mem_cons] <;> tauto
      · simp only [List.mem_cons, ih] <;> tauto

theorem sorted_insertRuleTail (r : RoutingRule) :
    ∀ l, RulesSortedDesc l → RulesSortedDesc (insertRuleTail r l) := by
  intro l
  induction l with
  | nil =>
      intro _
      exact List.pairwise_cons.mpr ⟨by simp, List.Pairwise.nil⟩
  | cons y ys ih =>
      intro hs
      rcases List.pairwise_cons.mp hs with ⟨hy, hys⟩
      simp only [insertRuleTail]
      split_ifs with h
      · refine List.pairwise_cons.mpr ⟨?_, hs⟩
        intro z hz
        rcases List.mem_cons.mp hz with rfl | hz'
        · exact le_of_lt h
        · exact le_trans (hy z hz') (le_of_lt h)
      · refine List.pairwise_cons.mpr ⟨?_, ih hys⟩
        intro z hz
        rcases mem_insertRuleTail.mp hz with rfl | hz'
        · omega
        · exact hy z hz'

theorem insertSortedRule_cons_of_le (x : RoutingRule) :
    ∀ l : List RoutingRule, (∀ y, l.head? = some y → y.priority ≤ x.priority) →
    insertSortedRule x l = x :: l := by
  intro l h
  cases l with
  | nil => rfl
  | cons y ys =>
      simp only [insertSortedRule]
      rw [if_pos (h y rfl)]

theorem insertRuleTail_cons_of_lt (x : RoutingRule) :
    ∀ l : List RoutingRule, (∀ y, l.head? = some y → y.priority < x.priority) →
    insertRuleTail x l = x :: l := by
  intro l h
  cases l with
  | nil => rfl
  | cons y ys =>
      simp only [insertRuleTail]
      rw [if_pos (h y rfl)]

/-- On an already-sorted list, the stable re-sort of
`rules.append(rule); rules.sort(...)` is exactly the ordered tail
insertion. -/
theorem sortRulesDesc_append_singleton (r : RoutingRule) :
    ∀ rs, RulesSortedDesc rs → sortRulesDesc (rs ++ [r]) = insertRuleTail r rs := by
  intro rs
  induction rs with
  | nil => intro _; rfl
  | cons x rs ih =>
      intro hs
      rcases List.pairwise_cons.mp hs with ⟨hx, hrs⟩
      have lhs1 : sortRulesDesc ((x :: rs) ++ [r]) =
          insertSortedRule x (sortRulesDesc (rs ++ [r])) := by
        simp only [List.cons_append, sortRulesDesc, List.append_eq]
      rw [lhs1, ih hrs]
      simp only [insertRuleTail]
      split_ifs with h
      · have h5 : insertRuleTail r rs = r :: rs := by
          apply insertRuleTail_cons_of_lt
          intro y hy
          cases rs with
          | nil => simp at hy
          | cons z zs =>
              simp only [List.head?_cons, Option.some.injEq] at hy
              subst hy
              exact lt_of_le_of_lt (hx z (by simp)) h
        rw [h5]
        simp only [insertSortedRule]
        rw [if_neg (by omega)]
        rw [insertSortedRule_cons_of_le x rs (fun y hy => by
          cases rs with
          | nil => simp at hy
          | cons z zs =>
              simp only [List.head?_cons, Option.some.injEq] at hy
              subst hy
              exact hx z (by simp))]
      · apply insertSortedRule_cons_of_le
        intro y hy
        cases rs with
        | nil =>
            simp only [insertRuleTail, List.head?_cons, Option.some.injEq] at hy
            subst hy
            omega
        | cons z zs =>
            simp only [insertRuleTail] at hy
            split_ifs at hy with h2
            · simp only [List.head?_cons, Option.some.injEq] at hy
              subst hy
              omega
            · simp only [List.head?_cons, Option.some.injEq] at hy
              subst hy
              exact hx z (by simp)

theorem engineWithRules_append (l : List RoutingRule) (r : RoutingRule) :
    engineWithRules (l ++ [r]) = addRule (engineWithRules l) r := by
  simp [engineWithRules, List.foldl_append]

theorem engineWithRules_sorted : ∀ l, RulesSortedDesc (engineWithRules l).rules := by
  intro l
  induction l using List.reverseRecOn with
  | nil => exact List.Pairwise.nil
  | append_singleton l r ih =>
      rw [engineWithRules_append]
      show RulesSortedDesc (sortRulesDesc ((engineWithRules l).rules ++ [r]))
      rw [sortRulesDesc_append_singleton r _ ih]
      exact sorted_insertRuleTail r _ ih

/-- Inserting a later rule into a sorted list shifts `find?` by one
appended argmax step: the new rule wins only by strictly greater
priority. -/
theorem matchRule_insertRuleTail (m : Message) (r : RoutingRule) :
    ∀ l, RulesSortedDesc l →
    matchRule (insertRuleTail r l) m = stepTail m (matchRule l m) r := by
  intro l
  induction l with
  | nil =>
      intro _
      simp only [matchRule, insertRuleTail, stepTail, List.find?_nil, List.find?_cons]
      by_cases hr : r.matches m <;> simp [hr]
  | cons x l ih =>
      intro hs
      rcases List.pairwise_cons.mp hs with ⟨hx, hls⟩
      simp only [insertRuleTail]
      split_ifs with h
      · by_cases hr : r.matches m = true
        · have hLHS : matchRule (r :: x :: l) m = some r := by
            simp [matchRule, List.find?_cons, hr]
          rw [hLHS]
          cases hf : matchRule (x :: l) m with
          | none => simp [stepTail, hr]
          | some b =>
              have hmem : b ∈ x :: l := List.mem_of_find?_eq_some hf
              have hblt : b.priority < r.priority := by
                rcases List.mem_cons.mp hmem with rfl | hb'
                · exact h
                · exact lt_of_le_of_lt (hx b hb') h
              simp [stepTail, hr, hblt]
        · have hrb : r.matches m = false := by simpa using hr
          have hLHS : matchRule (r :: x :: l) m = matchRule (x :: l) m := by
            simp [matchRule, List.find?_cons, hrb]
          rw [hLHS]
          cases hf : matchRule (x :: l) m with
          | none => simp [stepTail, hrb]
          | some b => simp [stepTail, hrb]
      · cases hfx : (x.matches m : Bool)
        · have hL : matchRule (x :: insertRuleTail r l) m =
              matchRule (insertRuleTail r l) m := by
            simp [matchRule, List.find?_cons, hfx]
          have hR : matchRule (x :: l) m = matchRule l m := by
            simp [matchRule, List.find?_cons, hfx]
          rw [hL, hR, ih hls]
        · have hL : matchRule (x :: insertRuleTail r l) m = some x := by
            simp [matchRule, List.find?_cons, hfx]
          have hR : matchRule (x :: l) m = some x := by
            simp [matchRule, List.find?_cons, hfx]
          rw [hL, hR]
          by_cases hr : r.matches m = true
          · simp [stepTail, hr, show ¬(x.priority < r.priority) from h]
          · simp [stepTail, show r.matches m = false by simpa using hr]

/-- Appending one rule shifts the head-first argmax scan by one tail
step. -/
theorem pickBestCons_stepTail (m : Message) (x r : RoutingRule) :
    ∀ b : Option RoutingRule,
    pickBestCons m x (stepTail m b r) = stepTail m (pickBestCons m x b) r := by
  intro b
  cases b with
  | none =>
      by_cases hx : x.matches m = true <;> by_cases hr : r.matches m = true
      · by_cases hxr : x.priority < r.priority
        · have h1 : ¬(r.priority ≤ x.priority) := by omega
          simp [pickBestCons, stepTail, hx, hr, hxr, h1]
        · have h1 : r.priority ≤ x.priority := by omega
          simp [pickBestCons, stepTail, hx, hr, hxr, h1]
      · simp [pickBestCons, stepTail, hx,
          show r.matches m = false by simpa using hr]
      · simp [pickBestCons, stepTail, hr,
          show x.matches m = false by simpa using hx]
      · simp [pickBestCons, stepTail,
          show x.matches m = false by simpa using hx,
          show r.matches m = false by simpa using hr]
  | some b =>
      by_cases hx : x.matches m = true <;> by_cases hr : r.matches m = true
      · by_cases hble : b.priority ≤ x.priority <;>
          by_cases hxr : x.priority < r.priority
        · have hblt : b.priority < r.priority := by omega
          have h1 : ¬(r.priority ≤ x.priority) := by omega
          simp [pickBestCons, stepTail, hx, hr, hble, hxr, hblt, h1]
        · have h1 : r.priority ≤ x.priority := by omega
          by_cases hblt : b.priority < r.priority <;>
            simp [pickBestCons, stepTail, hx, hr, hble, hxr, hblt, h1]
        · by_cases hblt : b.priority < r.priority <;>
            simp [pickBestCons, stepTail, hx, hr, hble, hxr, hblt,
              show ¬(r.priority ≤ x.priority) from by omega]
        · have hblt : ¬(b.priority < r.priority) := by omega
          simp [pickBestCons, stepTail, hx, hr, hble, hxr, hblt]
      · by_cases hble : b.priority ≤ x.priority <;>
          simp [pickBestCons, stepTail, hx, hble,
            show r.matches m = false by simpa using hr]
      · by_cases hblt : b.priority < r.priority <;>
          simp [pickBestCons, stepTail, hr, hblt,
            show x.matches m = false by simpa using hx]
      · simp [pickBestCons, stepTail,
          show x.matches m = false by simpa using hx,
          show r.matches m = false by simpa using hr]

theorem pickBest_concat (m : Message) (r : RoutingRule) :
    ∀ l, pickBest m (l ++ [r]) = stepTail m (pickBest m l) r := by
  intro l
  induction l with
  | nil => simp [pickBest, pickBestCons, stepTail]
  | cons x l ih =>
      simp only [List.cons_append, pickBest, List.append_eq, ih, pickBestCons_stepTail]

/-- The engine's `match_rule` over rules registered in order `l`
computes the head-first argmax scan. -/
theorem matchRule_engineWithRules (m : Message) : ∀ l,
    matchRule (engineWithRules l).rules m = pickBest m l := by
  intro l
  induction l using List.reverseRecOn with
  | nil => rfl
  | append_singleton l r ih =>
      rw [engineWithRules_append]
      have hrules : (addRule (engineWithRules l) r).rules =
          insertRuleTail r (engineWithRules l).rules := by
        show sortRulesDesc ((engineWithRules l).rules ++ [r]) = _
        exact sortRulesDesc_append_singleton r _ (engineWithRules_sorted l)
      rw [hrules, matchRule_insertRuleTail m r _ (engineWithRules_sorted l), ih,
        pickBest_concat]

/-- The argmax scan picks a matching rule of maximal priority, first in
insertion order among those of that priority; it returns `none` exactly
when no rule matches. -/
theorem pickBest_spec (m : Message) :
    ∀ l : List RoutingRule,
      (∀ r, pickBest m l = some r →
        r.matches m = true ∧ r ∈ l ∧
        (∀ x ∈ l, x.matches m = true → x.priority ≤ r.priority) ∧
        (l.filter (fun x => x.matches m && x.priority == r.priority)).head? = some r) ∧
      (pickBest m l = none → ∀ x ∈ l, x.matches m = false) := by
  intro l
  induction l with
  | nil =>
      constructor
      · intro r h
        simp [pickBest] at h
      · intro _ x hx
        simp at hx
  | cons x l ih =>
      obtain ⟨ihs, ihn⟩ := ih
      constructor
      · intro r h
        simp only [pickBest] at h
        cases hb : pickBest m l with
        | none =>
            rw [hb] at h
            simp only [pickBestCons] at h
            by_cases hx : x.matches m
            · rw [if_pos hx] at h
              injection h with h2
              subst h2
              refine ⟨hx, by simp, ?_, ?_⟩
              · intro y hy hym
                rcases List.mem_cons.mp hy with rfl | hy'
                · exact le_refl _
                · rw [ihn hb y hy'] at hym
                  cases hym
              · rw [List.filter_cons_of_pos (by simp [hx])]
                rfl
            · rw [if_neg hx] at h
              cases h
        | some b =>
            rw [hb] at h
            obtain ⟨hbm, hbmem, hbmax, hbfilter⟩ := ihs b hb
            simp only [pickBestCons] at h
            by_cases hcond : (x.matches m && decide (b.priority ≤ x.priority)) = true
            · obtain ⟨hxm, hle⟩ : x.matches m = true ∧ b.priority ≤ x.priority := by
                simpa using hcond
              rw [if_pos hcond] at h
              injection h with h2
              subst h2
              refine ⟨hxm, by simp, ?_, ?_⟩
              · intro y hy hym
                rcases List.mem_cons.mp hy with rfl | hy'
                · exact le_refl _
                · exact le_trans (hbmax y hy' hym) hle
              · rw [List.filter_cons_of_pos (by simp [hxm])]
                rfl
            · rw [if_neg hcond] at h
              injection h with h2
              subst h2
              refine ⟨hbm, List.mem_cons_of_mem _ hbmem, ?_, ?_⟩
              · intro y hy hym
                rcases List.mem_cons.mp hy with hyx | hy'
                · rw [hyx] at hym ⊢
                  have hnb : ¬(b.priority ≤ x.priority) := by
                    intro hc
                    exact hcond (by simp [hym, hc])
                  omega
                · exact hbmax y hy' hym
              · have hxfail : ¬((x.matches m && (x.priority == b.priority)) = true) := by
                  intro hc
                  obtain ⟨hx1, heq⟩ : x.matches m = true ∧ x.priority = b.priority := by
                    simpa using hc
                  exact hcond (by simp [hx1, heq])
                rw [List.filter_cons, if_neg hxfail]
                exact hbfilter
      · intro hnone y hy
        simp only [pickBest] at hnone
        cases hb : pickBest m l with
        | none =>
            rw [hb] at hnone
            simp only [pickBestCons] at hnone
            by_cases hx : x.matches m
            · rw [if_pos hx] at hnone
              cases hnone
            · rcases List.mem_cons.mp hy with rfl | hy'
              · simpa using hx
              · exact ihn hb y hy'
        | some b =>
            rw [hb] at hnone
            simp only [pickBestCons] at hnone
            split_ifs at hnone <;> cases hnone

/-- C3: the engine picks the enabled rule with the highest priority
whose predicate holds, ties broken by insertion order; the matched
rule's transform and target channel drive the selection, and with no
match the target falls back to the message's own channel. -/
theorem rule_selection_argmax (l : List RoutingRule) (m : Message) :
    matchRule (engineWithRules l).rules m = pickBest m l ∧
    (∀ r, pickBest m l = some r →
      r.matches m = true ∧
      (∀ x ∈ l, x.matches m = true → x.priority ≤ r.priority) ∧
      (l.filter (fun x => x.matches m && x.priority == r.priority)).head? = some r ∧
      routeSelect (engineWithRules l).rules m = (applyTransform r m, r.target_channel)) ∧
    (pickBest m l = none →
      (∀ x ∈ l, x.matches m = false) ∧
      routeSelect (engineWithRules l).rules m = (m, m.to_channel)) := by
  have hmr := matchRule_engineWithRules m l
  have hspec := pickBest_spec m l
  refine ⟨hmr, ?_, ?_⟩
  · intro r hr
    obtain ⟨h1, _, h3, h4⟩ := hspec.1 r hr
    refine ⟨h1, h3, h4, ?_⟩
    simp [routeSelect, hmr, hr]
  · intro hn
    refine ⟨hspec.2 hn, ?_⟩
    simp [routeSelect, hmr, hn]

/-- Witness: with two enabled matching rules of priority 1 and a
non-matching rule of priority 5, the selection agrees with the argmax
scan and routes via the earliest-inserted priority-1 rule. -/
theorem rule_selection_argmax_witness :
    matchRule (engineWithRules [ruleC3a, ruleC3b, ruleC3c]).rules msgFix =
      pickBest msgFix [ruleC3a, ruleC3b, ruleC3c] ∧
    routeSelect (engineWithRules [ruleC3a, ruleC3b, ruleC3c]).rules msgFix =
      (applyTransform ruleC3a msgFix, ruleC3a.target_channel) :=
  ⟨(rule_selection_argmax [ruleC3a, ruleC3b, ruleC3c] msgFix).1,
   ((rule_selection_argmax [ruleC3a, ruleC3b, ruleC3c] msgFix).2.1 ruleC3a rfl).2.2.2⟩

end Omni
